import Mathlib

set_option maxRecDepth 2000

/-
Verification of the FPGA power-rail HAL and sweep orchestrator.

Shallow embedding of the repository's Python sources:
- boardAbstraction.py (Code Changes Iteration Four): rail controllers,
  set_voltage, read_telemetry, the linear11/linear16 codec;
- boardAbstraction.py (Code Changes Iteration Three): the earlier set_voltage
  with the read-only flag check;
- start.py (Code Changes Iteration Five): the voltage-sweep orchestrator loop.

Real arithmetic is modelled over the rationals. Python exceptions caught by
the source's try/except blocks are modelled with Option / explicit failure
returns; hardware writes are recorded as explicit effect lists.
-/

/- Python int() applied to a float: truncation toward zero. -/
def pyTrunc (q : ℚ) : ℤ := if 0 ≤ q then ⌊q⌋ else ⌈q⌉

/- Python round(): round half to even (banker's rounding). -/
def pyRound (q : ℚ) : ℤ :=
  let f := ⌊q⌋
  if q - f < 1/2 then f
  else if q - f > 1/2 then f + 1
  else if f % 2 = 0 then f else f + 1

/- Python division: a ZeroDivisionError (modelled as none) when the divisor is 0. -/
def pyDiv (a b : ℚ) : Option ℚ := if b = 0 then none else some (a / b)

/- A hardware write effect issued by set_voltage. -/
inductive Effect
  | writeWord (addr cmd : ℕ) (val : ℤ)
  | writeByte (addr reg : ℕ) (val : ℤ)
  | writeFile (path : String) (val : ℤ)
deriving DecidableEq

/- A telemetry sample as returned by read_telemetry. -/
structure Sample where
  voltage_v : ℚ
  current_a : ℚ
  power_w : ℚ
deriving DecidableEq

namespace Iter4

/-
Source: src/Code Changes Iteration Four/boardAbstraction.py.

_decode_linear11: 5-bit two's-complement exponent in bits 11-15,
11-bit two's-complement mantissa in bits 0-10; mantissa * 2^exponent.
-/
def decode_linear11 (raw_word : ℕ) : ℚ :=
  let exp0 : ℤ := ((raw_word >>> 11) &&& 0x1F : ℕ)
  let exp : ℤ := if exp0 > 15 then exp0 - 32 else exp0
  let mant0 : ℤ := (raw_word &&& 0x7FF : ℕ)
  let mant : ℤ := if mant0 > 1023 then mant0 - 2048 else mant0
  (mant : ℚ) * (2 : ℚ) ^ exp

/- _decode_linear16: raw_word * 2.0 ** fixed_exp (fixed_exp defaults to -12). -/
def decode_linear16 (raw_word : ℕ) (fixed_exp : ℤ) : ℚ :=
  (raw_word : ℚ) * (2 : ℚ) ^ fixed_exp

/- The limits dict of a rail config; both bounds optional. -/
structure Limits where
  min : Option ℚ := none
  max : Option ℚ := none
deriving DecidableEq

/- The connection dict (only the field the read/write paths touch). -/
structure Conn where
  address : Option ℕ := none
deriving DecidableEq

/- The commands dict: named register addresses (hex strings, modelled parsed). -/
structure Cmds where
  read_voltage : Option ℕ := none
  read_current : Option ℕ := none
  set_voltage : Option ℕ := none
  voltage_reg : Option ℕ := none
  update_reg : Option ℕ := none
  update_value : Option ℕ := none
deriving DecidableEq

/- The format dict: encoding scheme tag plus scale/base/step constants. -/
structure Fmt where
  voltage_mode : Option String := none
  scale_factor : Option ℚ := none
  current_mode : Option String := none
  current_scale_factor : Option ℚ := none
  unit_div : Option ℚ := none
  base_v : Option ℚ := none
  step_v : Option ℚ := none
deriving DecidableEq

/- The files dict of a sysfs_monitor rail. -/
structure Files where
  voltage : Option String := none
  current : Option String := none
  power : Option String := none
  voltage_div : Option ℚ := none
  current_div : Option ℚ := none
  power_div : Option ℚ := none
deriving DecidableEq

/- A rail's configuration document; missing sub-dicts are none (a direct
Python index into a missing one raises KeyError, caught by the read/write
try blocks). read_only appears in configs but Iteration Four never reads it. -/
structure Conf where
  connection : Conn := {}
  commands : Option Cmds := none
  format : Option Fmt := none
  files : Option Files := none
  limits : Option Limits := none
  read_only : Option Bool := none
deriving DecidableEq

/- A rail controller as built by _init_rail_controller: the config, the
defaulted driver type string, the (possibly absent) bus handle, and the
(possibly absent) resolved sysfs paths. -/
structure Ctrl where
  name : String := ""
  conf : Conf := {}
  type : String := "sysfs_monitor"
  bus : Option Unit := none
  path_root : Option String := none
  path_microvolts : Option String := none
deriving DecidableEq

/- lim.get('min', 0.0) with lim = conf.get('limits', {}). -/
def lim_min (conf : Conf) : ℚ := ((conf.limits.getD {}).min).getD 0

/- lim.get('max', 99.0) with lim = conf.get('limits', {}). -/
def lim_max (conf : Conf) : ℚ := ((conf.limits.getD {}).max).getD 99

/- The safety bounds check at the top of set_voltage:
lim.get('min', 0.0) <= voltage_v <= lim.get('max', 99.0). -/
def voltage_in_bounds (conf : Conf) (voltage_v : ℚ) : Bool :=
  lim_min conf ≤ voltage_v ∧ voltage_v ≤ lim_max conf

/- The PMBus write branch of set_voltage. In the source, the else branch
("Generic Linear16 encoding") reads the local variable scale, which is only
assigned in the linear16_fixed branch: at runtime that raises
UnboundLocalError, caught by the surrounding except, so it returns False. -/
def pmbus_write (c : Ctrl) (voltage_v : ℚ) : Bool × List Effect :=
  match c.conf.connection.address, c.conf.commands, c.conf.format with
  | some addr, some cmds, some fmt =>
    match cmds.set_voltage with
    | some cmd =>
      if fmt.voltage_mode = some "linear16_fixed" then
        match fmt.scale_factor with
        | some scale => (true, [.writeWord addr cmd (pyTrunc (voltage_v * scale))])
        | none => (false, [])
      else
        (false, [])
    | none => (false, [])
  | _, _, _ => (false, [])

/- The sysfs regulator write branch of set_voltage. -/
def regulator_write (c : Ctrl) (voltage_v : ℚ) : Bool × List Effect :=
  match c.path_microvolts, c.conf.format with
  | some path, some fmt =>
    let unit_div := fmt.unit_div.getD 1000000
    (true, [.writeFile path (pyTrunc (voltage_v * unit_div))])
  | _, _ => (false, [])

/- The raw I2C (VID) write branch of set_voltage: stage the VID code, then
optionally commit through the update register. -/
def raw_i2c_write (c : Ctrl) (voltage_v : ℚ) : Bool × List Effect :=
  match c.conf.connection.address, c.conf.commands, c.conf.format with
  | some addr, some cmds, some fmt =>
    match cmds.voltage_reg with
    | some reg =>
      match fmt.base_v, fmt.step_v with
      | some base, some step =>
        let vid? : Option ℤ :=
          if voltage_v < base then some 0
          else (pyDiv (voltage_v - base) step).map pyRound
        match vid? with
        | some vid =>
          let w1 := Effect.writeByte addr reg vid
          match cmds.update_reg with
          | some up_reg =>
            let up_val := cmds.update_value.getD 0x01
            (true, [w1, .writeByte addr up_reg (up_val : ℤ)])
          | none => (true, [w1])
        | none => (false, [])
      | _, _ => (false, [])
    | none => (false, [])
  | _, _, _ => (false, [])

/- set_voltage (Iteration Four): bounds check first, then dispatch by driver
type; any exception inside a branch is caught and reported as failure. The
returned list holds the writes that reached the hardware handle. -/
def set_voltage (c : Ctrl) (voltage_v : ℚ) : Bool × List Effect :=
  if voltage_in_bounds c.conf voltage_v then
    if c.type = "pmbus" ∧ c.bus.isSome then pmbus_write c voltage_v
    else if c.type = "sysfs_regulator" ∧ c.path_microvolts.isSome then
      regulator_write c voltage_v
    else if c.type = "raw_i2c" ∧ c.bus.isSome then raw_i2c_write c voltage_v
    else (false, [])
  else (false, [])

/- The world read_telemetry interacts with: bus word reads and sysfs file
reads; none models an I/O exception (or an unreadable/unparseable file). -/
structure ReadEnv where
  readWord : ℕ → ℕ → Option ℕ
  readFile : String → Option ℚ

/- read_telemetry (Iteration Four). Dispatches by driver type; any exception
during I/O or decode returns none. A rail matching no branch (raw_i2c, or a
handle that was never resolved) leaves v, i, p at 0.0 and returns that
zero sample. -/
def read_telemetry (c : Ctrl) (env : ReadEnv) : Option Sample :=
  if c.type = "pmbus" ∧ c.bus.isSome then
    match c.conf.connection.address, c.conf.commands, c.conf.format with
    | some addr, some cmds, some fmt =>
      match cmds.read_voltage with
      | some rv_cmd =>
        match env.readWord addr rv_cmd with
        | some raw_v =>
          let v? : Option ℚ :=
            if fmt.voltage_mode = some "linear16_fixed" then
              match fmt.scale_factor with
              | some scale => pyDiv (raw_v : ℚ) scale
              | none => none
            else some (decode_linear16 raw_v (-12))
          match v? with
          | some v =>
            let i? : Option ℚ :=
              match cmds.read_current with
              | some rc_cmd =>
                match env.readWord addr rc_cmd with
                | some raw_i =>
                  if fmt.current_mode = some "linear11" then
                    some (decode_linear11 raw_i)
                  else if fmt.current_mode = some "linear16_fixed" then
                    match fmt.current_scale_factor with
                    | some cs => pyDiv (raw_i : ℚ) cs
                    | none => none
                  else some 0
                | none => none
              | none => some 0
            match i? with
            | some i => some ⟨v, i, v * i⟩
            | none => none
          | none => none
        | none => none
      | none => none
    | _, _, _ => none
  else if c.type = "sysfs_monitor" ∧ c.path_root.isSome then
    match c.path_root, c.conf.files with
    | some root, some f_map =>
      let v_div := f_map.voltage_div.getD 1
      let c_div := f_map.current_div.getD 1
      let p_div := f_map.power_div.getD 1
      let v? : Option ℚ :=
        match f_map.voltage with
        | some file => (env.readFile (root ++ "/" ++ file)).bind (pyDiv · v_div)
        | none => some 0
      match v? with
      | some v =>
        let i? : Option ℚ :=
          match f_map.current with
          | some file => (env.readFile (root ++ "/" ++ file)).bind (pyDiv · c_div)
          | none => some 0
        match i? with
        | some i =>
          let p? : Option ℚ :=
            match f_map.power with
            | some file => (env.readFile (root ++ "/" ++ file)).bind (pyDiv · p_div)
            | none => some (v * i)
          match p? with
          | some p => some ⟨v, i, p⟩
          | none => none
        | none => none
      | none => none
    | _, _ => none
  else if c.type = "sysfs_regulator" ∧ c.path_microvolts.isSome then
    match c.path_microvolts, c.conf.format with
    | some path, some fmt =>
      let unit_div := fmt.unit_div.getD 1000000
      match (env.readFile path).bind (pyDiv · unit_div) with
      | some v => some ⟨v, 0, 0⟩
      | none => none
    | _, _ => none
  else
    some ⟨0, 0, 0⟩

/- A runtime handle that discovery failed to resolve: the per-type guard of
every read/write branch then fails. -/
def handle_absent (c : Ctrl) : Bool :=
  ((c.type = "pmbus" ∨ c.type = "raw_i2c") ∧ c.bus = none)
    ∨ (c.type = "sysfs_monitor" ∧ c.path_root = none)
    ∨ (c.type = "sysfs_regulator" ∧ c.path_microvolts = none)

end Iter4

namespace Iter3

/-
Source: src/Code Changes Iteration Three/boardAbstraction.py, set_voltage.
Differences from Iteration Four: a read-only flag check (defaulting to True)
runs before the bounds check, and pmbus/raw_i2c share one word-write branch.
-/

/- The slice of the Iteration Three rail config that set_voltage touches. -/
structure Conf where
  read_only : Option Bool := none
  limits : Option Iter4.Limits := none
  connection_address : Option ℕ := none
  commands_set_voltage : Option ℕ := none
  format_scale_factor : Option ℚ := none
deriving DecidableEq

/- An Iteration Three rail controller (regulator_path is always a key,
None when discovery failed). -/
structure Ctrl where
  name : String := ""
  conf : Conf := {}
  type : String := "sysfs_monitor"
  bus : Option Unit := none
  regulator_path : Option String := none
deriving DecidableEq

/- limits.get('min', 0.0). -/
def lim_min (conf : Conf) : ℚ := ((conf.limits.getD {}).min).getD 0

/- limits.get('max', 99.0). -/
def lim_max (conf : Conf) : ℚ := ((conf.limits.getD {}).max).getD 99

/- set_voltage (Iteration Three): read-only check, bounds check, then the
pmbus/raw_i2c word write or the sysfs regulator microvolt write. -/
def set_voltage (c : Ctrl) (voltage_v : ℚ) : Bool × List Effect :=
  if c.conf.read_only.getD true then (false, [])
  else if ¬ (lim_min c.conf ≤ voltage_v ∧ voltage_v ≤ lim_max c.conf) then (false, [])
  else if (c.type = "pmbus" ∨ c.type = "raw_i2c") ∧ c.bus.isSome then
    match c.conf.connection_address, c.conf.commands_set_voltage,
        c.conf.format_scale_factor with
    | some addr, some cmd, some scale =>
      (true, [.writeWord addr cmd (pyTrunc (voltage_v * scale))])
    | _, _, _ => (false, [])
  else if c.type = "sysfs_regulator" ∧ c.regulator_path.isSome then
    match c.regulator_path with
    | some path => (true, [.writeFile path (pyTrunc (voltage_v * 1000000))])
    | none => (false, [])
  else (false, [])

end Iter3

namespace Sweep

/-
Source: src/Code Changes Iteration Five/start.py, run_workload_sweep.

The external world of one sweep step, as seen by the loop body: the
set_voltage call can fail, the workload process run can be replaced by a
KeyboardInterrupt or raise while being invoked, or complete with an exit
code and an optional regex accuracy match.
-/
inductive StepEvent
  | interrupt
  | setFail
  | execExc
  | run (code : ℤ) (accMatch : Option ℚ)
deriving DecidableEq

/- Observable actions of the sweep: the banner print opening step k at
voltage v, and a HAL set_voltage invocation. -/
inductive SweepEv
  | stepStart (k : ℕ) (v : ℚ)
  | setCall (rail : String) (v : ℚ)
deriving DecidableEq

/- One appended row of the cumulative summary file (the fields the loop
computes itself; wall-clock timestamp, duration and buffer averages are
environment data and are not modelled). -/
structure SummaryRow where
  voltage : ℚ
  accuracy : ℚ
  status : String
deriving DecidableEq

/- How the step loop ended. pythonError is the UnboundLocalError raised in
the finally block when the status local is read before it was ever
assigned (first-step crash or first-step execution exception). fuelOut is
the recursion fuel running out; sweep_loop_no_fuelOut shows the 502 fuel
given by run_workload_sweep never exhausts. -/
inductive ExitReason
  | normal
  | setFailAbort
  | execAbort
  | safetyCap
  | interrupted
  | pythonError
  | fuelOut
deriving DecidableEq

structure SweepResult where
  trace : List SweepEv
  rows : List SummaryRow
  reason : ExitReason
deriving DecidableEq

/- The per-sweep constants resolved before the loop starts. -/
structure SweepConfig where
  rail : String := "VCCINT"
  nominal_v : ℚ
  min_v : ℚ
  coarse_step : ℚ := 1/100
deriving DecidableEq

/- fine_threshold = min_v + 0.02. -/
def fine_threshold (cfg : SweepConfig) : ℚ := cfg.min_v + 2/100

/- fine_step = 0.001. -/
def fine_step : ℚ := 1/1000

/- The epsilon in the loop guard: current_v >= min_v - 0.0001. -/
def sweep_eps : ℚ := 1/10000

/- Step-size policy (start.py lines 148-154): within the declared margin
above min_v use the fine step, otherwise the configured coarse step. -/
def choose_step (cfg : SweepConfig) (current_v : ℚ) : ℚ :=
  if current_v ≤ fine_threshold cfg then fine_step else cfg.coarse_step

/- The step loop of run_workload_sweep, one recursive call per iteration.
Arguments: remaining fuel, current_v, step_count, and the status local
(none while it was never assigned). An exit code of 0 or -6 assigns status;
any other exit code leaves it untouched (the source's else branch only
prints). The summary row is written in the finally block, so it is also
written when the workload invocation raised; reading an unassigned status
there raises UnboundLocalError, recording nothing and aborting the sweep. -/
def sweep_loop (cfg : SweepConfig) (env : ℕ → StepEvent) :
    ℕ → ℚ → ℕ → Option String → SweepResult
  | 0, _, _, _ => ⟨[], [], .fuelOut⟩
  | fuel + 1, current_v, step_count, status =>
    if ¬ (current_v ≥ cfg.min_v - sweep_eps) then ⟨[], [], .normal⟩
    else
      match env step_count with
      | .interrupt => ⟨[.stepStart step_count current_v], [], .interrupted⟩
      | .setFail =>
        ⟨[.stepStart step_count current_v, .setCall cfg.rail current_v], [],
          .setFailAbort⟩
      | .execExc =>
        match status with
        | none =>
          ⟨[.stepStart step_count current_v, .setCall cfg.rail current_v], [],
            .pythonError⟩
        | some st =>
          ⟨[.stepStart step_count current_v, .setCall cfg.rail current_v],
            [⟨current_v, 0, st⟩], .execAbort⟩
      | .run code accMatch =>
        let accuracy_found : ℚ := accMatch.getD 0
        let status' : Option String :=
          if code = 0 ∨ code = -6 then
            some (if code = -6 then "SUCCESS (GUI Ignored)" else "SUCCESS")
          else status
        match status' with
        | none =>
          ⟨[.stepStart step_count current_v, .setCall cfg.rail current_v], [],
            .pythonError⟩
        | some st =>
          let row : SummaryRow := ⟨current_v, accuracy_found, st⟩
          let current_v' := current_v - choose_step cfg current_v
          let step_count' := step_count + 1
          if step_count' > 500 then
            ⟨[.stepStart step_count current_v, .setCall cfg.rail current_v],
              [row], .safetyCap⟩
          else
            let rest := sweep_loop cfg env fuel current_v' step_count' status'
            ⟨.stepStart step_count current_v :: .setCall cfg.rail current_v ::
                rest.trace,
              row :: rest.rows, rest.reason⟩

/- run_workload_sweep: the loop wrapped in try/except KeyboardInterrupt/
finally, the finally clause restoring the nominal voltage with one more
set_voltage call on every termination path. -/
def run_workload_sweep (cfg : SweepConfig) (env : ℕ → StepEvent) : SweepResult :=
  let L := sweep_loop cfg env 502 cfg.nominal_v 0 none
  ⟨L.trace ++ [.setCall cfg.rail cfg.nominal_v], L.rows, L.reason⟩

/- The step index opening an event, for extracting the executed steps. -/
def stepIdx : SweepEv → Option ℕ
  | .stepStart k _ => some k
  | _ => none

/- The voltage of a step banner, for extracting the voltage trajectory. -/
def stepVolt : SweepEv → Option ℚ
  | .stepStart _ v => some v
  | _ => none

end Sweep

/- The sweep configuration of an endless run: nominal 0.85 V, minimum
0.55 V and a coarse step of zero, so the voltage never drops below the
minimum and only the safety cap can halt the loop. -/
def cfg_endless : Sweep.SweepConfig :=
  { rail := "VCCINT", nominal_v := 17/20, min_v := 11/20, coarse_step := 0 }

/- An environment in which every workload run exits 0 with no accuracy
match. -/
def env_ok : ℕ → Sweep.StepEvent := fun _ => .run 0 none

/- The event trace of n consecutive successful steps at 0.85 V starting at
step index s. -/
def capTrace : ℕ → ℕ → List Sweep.SweepEv
  | _, 0 => []
  | s, n + 1 =>
    .stepStart s (17/20) :: .setCall "VCCINT" (17/20) :: capTrace (s + 1) n

/- Modelled from the spec: the linear11 wire packing that decode_linear11
inverts — a 5-bit two's-complement exponent in bits 11-15 and an 11-bit
two's-complement mantissa in bits 0-10 of a 16-bit word. -/
def pack_linear11 (e m : ℤ) : ℕ :=
  2048 * (e % 32).toNat + (m % 2048).toNat

/- A control-only raw_i2c rail with an open bus, as configured for VID
writes. -/
def raw_rail : Iter4.Ctrl :=
  { name := "VCC_RAW", type := "raw_i2c", bus := some (),
    conf := { connection := { address := some 0x40 },
              commands := some { voltage_reg := some 0x21 },
              format := some { base_v := some (3/5), step_v := some (1/200) },
              limits := some { min := some (11/20), max := some (9/10) } } }

/- An environment whose every bus or file read raises. -/
def env0 : Iter4.ReadEnv := ⟨fun _ _ => none, fun _ => none⟩

/- A writable pmbus rail in the fixed-scale voltage format. -/
def pmbus_rail : Iter4.Ctrl :=
  { name := "VCCINT", type := "pmbus", bus := some (),
    conf := { connection := { address := some 0x40 },
              commands := some { set_voltage := some 0x21 },
              format := some { voltage_mode := some "linear16_fixed",
                               scale_factor := some 4096 },
              limits := some { min := some (11/20), max := some (9/10) } } }

/- The same rail declaring the generic scaled voltage mode instead. -/
def pmbus_rail_generic : Iter4.Ctrl :=
  { name := "VCCINT", type := "pmbus", bus := some (),
    conf := { connection := { address := some 0x40 },
              commands := some { set_voltage := some 0x21 },
              format := some { voltage_mode := some "linear16",
                               scale_factor := some 4096 },
              limits := some { min := some (11/20), max := some (9/10) } } }

/- The fixed-scale pmbus rail with the read-only flag set: Iteration Four's
set_voltage never consults the flag. -/
def pmbus_rail_ro : Iter4.Ctrl :=
  { name := "VCCINT", type := "pmbus", bus := some (),
    conf := { connection := { address := some 0x40 },
              commands := some { set_voltage := some 0x21 },
              format := some { voltage_mode := some "linear16_fixed",
                               scale_factor := some 4096 },
              limits := some { min := some (11/20), max := some (9/10) },
              read_only := some true } }


/- Sweep configurations and environments used by the concrete sweep
theorems. cfg_std is the claims' standard sweep: nominal 0.85 V, minimum
0.55 V, coarse step 0.01 V. cfgA starts at the minimum (a one-step sweep);
cfgC starts at 0.551 V (a two-step sweep). -/
def cfg_std : Sweep.SweepConfig :=
  { rail := "VCCINT", nominal_v := 17/20, min_v := 11/20, coarse_step := 1/100 }

def cfgA : Sweep.SweepConfig :=
  { rail := "VCCINT", nominal_v := 11/20, min_v := 11/20, coarse_step := 1/100 }

def cfgC : Sweep.SweepConfig :=
  { rail := "VCCINT", nominal_v := 551/1000, min_v := 11/20,
    coarse_step := 1/100 }

/- Every set_voltage call in the loop fails. -/
def env_setFail : ℕ → Sweep.StepEvent := fun _ => .setFail

/- A user interrupt arrives at the first step. -/
def env_interrupt : ℕ → Sweep.StepEvent := fun _ => .interrupt

/- Every workload run crashes with exit code 1. -/
def env_crash0 : ℕ → Sweep.StepEvent := fun _ => .run 1 none

/- The first workload run succeeds with accuracy 0.923, every later one
crashes with exit code 1. -/
def env_crash1 : ℕ → Sweep.StepEvent :=
  fun k => if k = 0 then .run 0 (some (923/1000)) else .run 1 none

namespace Sweep

/- One-iteration unfolding lemmas for sweep_loop, one per control path. -/

theorem sweep_loop_exit (cfg : SweepConfig) (env : ℕ → StepEvent)
    (fuel s : ℕ) (v : ℚ) (st : Option String)
    (h : ¬ (v ≥ cfg.min_v - sweep_eps)) :
    sweep_loop cfg env (fuel + 1) v s st = ⟨[], [], .normal⟩ := by
  simp only [sweep_loop]
  rw [if_pos h]

theorem sweep_loop_interrupt (cfg : SweepConfig) (env : ℕ → StepEvent)
    (fuel s : ℕ) (v : ℚ) (st : Option String)
    (hg : v ≥ cfg.min_v - sweep_eps) (he : env s = .interrupt) :
    sweep_loop cfg env (fuel + 1) v s st =
      ⟨[.stepStart s v], [], .interrupted⟩ := by
  simp only [sweep_loop]
  rw [if_neg (not_not_intro hg), he]

theorem sweep_loop_setFail (cfg : SweepConfig) (env : ℕ → StepEvent)
    (fuel s : ℕ) (v : ℚ) (st : Option String)
    (hg : v ≥ cfg.min_v - sweep_eps) (he : env s = .setFail) :
    sweep_loop cfg env (fuel + 1) v s st =
      ⟨[.stepStart s v, .setCall cfg.rail v], [], .setFailAbort⟩ := by
  simp only [sweep_loop]
  rw [if_neg (not_not_intro hg), he]

theorem sweep_loop_run0_cont (cfg : SweepConfig) (env : ℕ → StepEvent)
    (fuel s : ℕ) (v : ℚ) (st : Option String) (acc : Option ℚ)
    (hg : v ≥ cfg.min_v - sweep_eps) (he : env s = .run 0 acc)
    (hcap : s + 1 ≤ 500) :
    sweep_loop cfg env (fuel + 1) v s st =
      ⟨.stepStart s v :: .setCall cfg.rail v ::
          (sweep_loop cfg env fuel (v - choose_step cfg v) (s + 1)
            (some "SUCCESS")).trace,
        ⟨v, acc.getD 0, "SUCCESS"⟩ ::
          (sweep_loop cfg env fuel (v - choose_step cfg v) (s + 1)
            (some "SUCCESS")).rows,
        (sweep_loop cfg env fuel (v - choose_step cfg v) (s + 1)
          (some "SUCCESS")).reason⟩ := by
  simp only [sweep_loop]
  rw [if_neg (not_not_intro hg), he]
  dsimp only
  rw [if_pos (by norm_num : (0 : ℤ) = 0 ∨ (0 : ℤ) = -6),
    if_neg (by norm_num : ¬ (0 : ℤ) = -6)]
  dsimp only
  rw [if_neg (by omega : ¬ (s + 1 > 500))]

theorem sweep_loop_run0_cap (cfg : SweepConfig) (env : ℕ → StepEvent)
    (fuel s : ℕ) (v : ℚ) (st : Option String) (acc : Option ℚ)
    (hg : v ≥ cfg.min_v - sweep_eps) (he : env s = .run 0 acc)
    (hcap : s + 1 > 500) :
    sweep_loop cfg env (fuel + 1) v s st =
      ⟨[.stepStart s v, .setCall cfg.rail v], [⟨v, acc.getD 0, "SUCCESS"⟩],
        .safetyCap⟩ := by
  simp only [sweep_loop]
  rw [if_neg (not_not_intro hg), he]
  dsimp only
  rw [if_pos (by norm_num : (0 : ℤ) = 0 ∨ (0 : ℤ) = -6),
    if_neg (by norm_num : ¬ (0 : ℤ) = -6)]
  dsimp only
  rw [if_pos hcap]

theorem sweep_loop_crash_unassigned (cfg : SweepConfig) (env : ℕ → StepEvent)
    (fuel s : ℕ) (v : ℚ) (code : ℤ) (acc : Option ℚ)
    (hg : v ≥ cfg.min_v - sweep_eps) (he : env s = .run code acc)
    (hc0 : ¬ code = 0) (hc6 : ¬ code = -6) :
    sweep_loop cfg env (fuel + 1) v s none =
      ⟨[.stepStart s v, .setCall cfg.rail v], [], .pythonError⟩ := by
  simp only [sweep_loop]
  rw [if_neg (not_not_intro hg), he]
  dsimp only
  rw [if_neg (by tauto : ¬ (code = 0 ∨ code = -6))]

theorem sweep_loop_crash_stale (cfg : SweepConfig) (env : ℕ → StepEvent)
    (fuel s : ℕ) (v : ℚ) (stv : String) (code : ℤ) (acc : Option ℚ)
    (hg : v ≥ cfg.min_v - sweep_eps) (he : env s = .run code acc)
    (hc0 : ¬ code = 0) (hc6 : ¬ code = -6) (hcap : s + 1 ≤ 500) :
    sweep_loop cfg env (fuel + 1) v s (some stv) =
      ⟨.stepStart s v :: .setCall cfg.rail v ::
          (sweep_loop cfg env fuel (v - choose_step cfg v) (s + 1)
            (some stv)).trace,
        ⟨v, acc.getD 0, stv⟩ ::
          (sweep_loop cfg env fuel (v - choose_step cfg v) (s + 1)
            (some stv)).rows,
        (sweep_loop cfg env fuel (v - choose_step cfg v) (s + 1)
          (some stv)).reason⟩ := by
  simp only [sweep_loop]
  rw [if_neg (not_not_intro hg), he]
  dsimp only
  rw [if_neg (by tauto : ¬ (code = 0 ∨ code = -6))]
  dsimp only
  rw [if_neg (by omega : ¬ (s + 1 > 500))]

end Sweep

theorem capTrace_filterMap : ∀ n s,
    (capTrace s n).filterMap Sweep.stepIdx = List.range' s n := by
  intro n
  induction n with
  | zero => intro s; rfl
  | succ n ih =>
    intro s
    rw [List.range'_succ]
    simp only [capTrace, List.filterMap_cons, Sweep.stepIdx]
    rw [ih]

/- In the endless configuration every iteration keeps the voltage at 0.85 V
and succeeds, so from step s = 500 - n the loop runs exactly n + 1 more
iterations and halts with the safetyCap reason. -/
theorem sweep_cap_invariant : ∀ (n fuel s : ℕ) (st : Option String),
    s = 500 - n → n ≤ 500 → n + 1 ≤ fuel →
    Sweep.sweep_loop cfg_endless env_ok fuel (17/20) s st =
      ⟨capTrace s (n + 1),
        List.replicate (n + 1) ⟨17/20, 0, "SUCCESS"⟩, .safetyCap⟩ := by
  have hg : (17/20 : ℚ) ≥ cfg_endless.min_v - Sweep.sweep_eps := by
    rw [show cfg_endless.min_v = 11/20 from rfl,
      show Sweep.sweep_eps = 1/10000 from rfl]
    norm_num
  have hv : (17/20 : ℚ) - Sweep.choose_step cfg_endless (17/20) = 17/20 := by
    rw [Sweep.choose_step, if_neg, show cfg_endless.coarse_step = 0 from rfl,
      sub_zero]
    rw [show Sweep.fine_threshold cfg_endless = 11/20 + 2/100 from rfl]
    norm_num
  intro n
  induction n with
  | zero =>
    intro fuel s st hs _ hfuel
    obtain ⟨f, rfl⟩ : ∃ f, fuel = f + 1 := ⟨fuel - 1, by omega⟩
    subst hs
    rw [Sweep.sweep_loop_run0_cap cfg_endless env_ok f (500 - 0) (17/20) st none
      hg rfl (by omega)]
    rfl
  | succ n ih =>
    intro fuel s st hs hn hfuel
    obtain ⟨f, rfl⟩ : ∃ f, fuel = f + 1 := ⟨fuel - 1, by omega⟩
    subst hs
    rw [Sweep.sweep_loop_run0_cont cfg_endless env_ok f (500 - (n + 1)) (17/20)
      st none hg rfl (by omega)]
    rw [hv]
    rw [show 500 - (n + 1) + 1 = 500 - n from by omega]
    rw [ih f (500 - n) (some "SUCCESS") rfl (by omega) (by omega)]
    have hct : capTrace (500 - (n + 1)) (n + 1 + 1) =
        Sweep.SweepEv.stepStart (500 - (n + 1)) (17/20) ::
          Sweep.SweepEv.setCall "VCCINT" (17/20) ::
            capTrace (500 - (n + 1) + 1) (n + 1) := rfl
    rw [hct, show 500 - (n + 1) + 1 = 500 - n from by omega]
    rfl

/- Masking with an all-ones pattern is reduction modulo the power of two. -/
theorem and_pow_two_mask (n k : ℕ) : n &&& (2 ^ k - 1) = n % 2 ^ k := by
  apply Nat.eq_of_testBit_eq
  intro i
  simp [Nat.testBit_mod_two_pow, Bool.and_comm]

/- The high 5 bits of a packed linear11 word. -/
theorem linear11_hi (A B : ℕ) (hA : A < 32) (hB : B < 2048) :
    ((2048 * A + B) >>> 11) &&& 0x1F = A := by
  rw [Nat.shiftRight_eq_div_pow]
  have h2 : (2 : ℕ) ^ 11 = 2048 := by norm_num
  rw [h2, Nat.mul_add_div (by norm_num : 0 < 2048) A B, Nat.div_eq_of_lt hB,
    Nat.add_zero]
  have h31 : (0x1F : ℕ) = 2 ^ 5 - 1 := by norm_num
  rw [h31, and_pow_two_mask, Nat.mod_eq_of_lt (by omega)]

/- The low 11 bits of a packed linear11 word. -/
theorem linear11_lo (A B : ℕ) (hB : B < 2048) :
    (2048 * A + B) &&& 0x7FF = B := by
  have h : (0x7FF : ℕ) = 2 ^ 11 - 1 := by norm_num
  have h2 : (2 : ℕ) ^ 11 = 2048 := by norm_num
  rw [h, and_pow_two_mask, h2, Nat.mul_add_mod, Nat.mod_eq_of_lt hB]

/-- C9: for every exponent in [-16, 15] and mantissa in [-1024, 1023],
decode_linear11 applied to the 16-bit linear11 packing of the pair returns
exactly mantissa * 2 ^ exponent: the decoder is the exact inverse of the
bit-packing. -/
theorem decode_linear11_inverts_packing (e m : ℤ)
    (he₁ : -16 ≤ e) (he₂ : e ≤ 15) (hm₁ : -1024 ≤ m) (hm₂ : m ≤ 1023) :
    Iter4.decode_linear11 (pack_linear11 e m) = (m : ℚ) * (2 : ℚ) ^ e := by
  have hAcast : (((e % 32).toNat : ℤ)) = e % 32 :=
    Int.toNat_of_nonneg (Int.emod_nonneg e (by norm_num))
  have hBcast : (((m % 2048).toNat : ℤ)) = m % 2048 :=
    Int.toNat_of_nonneg (Int.emod_nonneg m (by norm_num))
  have hAlt : (e % 32).toNat < 32 := by omega
  have hBlt : (m % 2048).toNat < 2048 := by omega
  unfold Iter4.decode_linear11 pack_linear11
  rw [linear11_hi _ _ hAlt hBlt, linear11_lo _ _ hBlt]
  have hexp : (if ((e % 32).toNat : ℤ) > 15 then ((e % 32).toNat : ℤ) - 32
      else ((e % 32).toNat : ℤ)) = e := by
    rw [hAcast]; split <;> omega
  have hmant : (if ((m % 2048).toNat : ℤ) > 1023 then ((m % 2048).toNat : ℤ) - 2048
      else ((m % 2048).toNat : ℤ)) = m := by
    rw [hBcast]; split <;> omega
  simp only [hexp, hmant]

/-- Witness for C9 at exponent -12, mantissa 1000. -/
theorem decode_linear11_inverts_packing_witness :
    (-16 ≤ (-12 : ℤ) ∧ (-12 : ℤ) ≤ 15 ∧ -1024 ≤ (1000 : ℤ) ∧ (1000 : ℤ) ≤ 1023) ∧
      Iter4.decode_linear11 (pack_linear11 (-12) 1000) =
        (1000 : ℚ) * (2 : ℚ) ^ (-12 : ℤ) :=
  ⟨by norm_num,
    decode_linear11_inverts_packing (-12) 1000 (by norm_num) (by norm_num)
      (by norm_num) (by norm_num)⟩

/-- C1: for every Iteration Four rail, every Iteration Three rail and every
requested voltage v outside the rail's declared [min, max] envelope,
set_voltage returns failure with an empty write trace: no write call reaches
the underlying handle, the bounds check coming before any hardware access. -/
theorem set_voltage_out_of_bounds_no_write (c4 : Iter4.Ctrl) (c3 : Iter3.Ctrl)
    (v : ℚ)
    (h4 : v < Iter4.lim_min c4.conf ∨ v > Iter4.lim_max c4.conf)
    (h3 : v < Iter3.lim_min c3.conf ∨ v > Iter3.lim_max c3.conf) :
    Iter4.set_voltage c4 v = (false, []) ∧
      Iter3.set_voltage c3 v = (false, []) := by
  constructor
  · have hb : Iter4.voltage_in_bounds c4.conf v = false := by
      simp only [Iter4.voltage_in_bounds, decide_eq_false_iff_not]
      rintro ⟨h1, h2⟩
      rcases h4 with h | h <;> linarith
    simp [Iter4.set_voltage, hb]
  · unfold Iter3.set_voltage
    rcases hro : c3.conf.read_only.getD true with _ | _
    · have hb : ¬ (Iter3.lim_min c3.conf ≤ v ∧ v ≤ Iter3.lim_max c3.conf) := by
        rintro ⟨h1, h2⟩
        rcases h3 with h | h <;> linarith
      simp [hro, hb]
    · simp [hro]

/-- Witness for C1: the default controllers and the out-of-bounds request
100 V (the default envelope being [0, 99]). -/
theorem set_voltage_out_of_bounds_no_write_witness :
    ((100 : ℚ) > Iter4.lim_max ({} : Iter4.Ctrl).conf ∧
        (100 : ℚ) > Iter3.lim_max ({} : Iter3.Ctrl).conf) ∧
      Iter4.set_voltage {} 100 = (false, []) ∧
        Iter3.set_voltage {} 100 = (false, []) := by
  have hmax4 : Iter4.lim_max ({} : Iter4.Ctrl).conf = 99 := rfl
  have hmax3 : Iter3.lim_max ({} : Iter3.Ctrl).conf = 99 := rfl
  have h := set_voltage_out_of_bounds_no_write {} {} 100
    (Or.inr (by rw [hmax4]; norm_num)) (Or.inr (by rw [hmax3]; norm_num))
  exact ⟨⟨by rw [hmax4]; norm_num, by rw [hmax3]; norm_num⟩, h⟩

/-- C10: when a rail's configuration has no limits entry, or omits min or
max, the bounds check substitutes the defaults 0.0 and 99.0, so with no
limits at all every requested voltage in [0, 99] passes the safety check. -/
theorem default_limits_pass (conf : Iter4.Conf) (v : ℚ) :
    ((conf.limits.getD {}).min = none → Iter4.lim_min conf = 0) ∧
      ((conf.limits.getD {}).max = none → Iter4.lim_max conf = 99) ∧
      (conf.limits = none → 0 ≤ v → v ≤ 99 →
        Iter4.voltage_in_bounds conf v = true) := by
  refine ⟨fun h => by simp [Iter4.lim_min, h], fun h => by simp [Iter4.lim_max, h],
    fun h h0 h99 => ?_⟩
  simp [Iter4.voltage_in_bounds, Iter4.lim_min, Iter4.lim_max, h]
  exact ⟨h0, h99⟩

/-- Witness for C10: the empty configuration and the request 50 V. -/
theorem default_limits_pass_witness :
    Iter4.lim_min ({} : Iter4.Conf) = 0 ∧ Iter4.lim_max ({} : Iter4.Conf) = 99 ∧
      Iter4.voltage_in_bounds ({} : Iter4.Conf) 50 = true :=
  ⟨(default_limits_pass {} 50).1 rfl, (default_limits_pass {} 50).2.1 rfl,
    (default_limits_pass {} 50).2.2 rfl (by norm_num) (by norm_num)⟩

/- Fall-through of read_telemetry: when no driver branch matches, the locals
v, i, p keep their 0.0 initialisation and a zero sample is returned. -/
theorem read_telemetry_fallthrough (c : Iter4.Ctrl) (env : Iter4.ReadEnv)
    (h1 : ¬ (c.type = "pmbus" ∧ c.bus.isSome))
    (h2 : ¬ (c.type = "sysfs_monitor" ∧ c.path_root.isSome))
    (h3 : ¬ (c.type = "sysfs_regulator" ∧ c.path_microvolts.isSome)) :
    Iter4.read_telemetry c env = some ⟨0, 0, 0⟩ := by
  unfold Iter4.read_telemetry
  rw [if_neg h1, if_neg h2, if_neg h3]

/-- C4 counterexample: on a raw_i2c rail, read_telemetry does not return
absent — no dispatch branch matches, so it returns the zero sample
{voltage 0, current 0, power 0}, refuting the claim that such a rail yields
no sample. -/
theorem read_telemetry_raw_i2c_not_absent :
    raw_rail.type = "raw_i2c" ∧
      Iter4.read_telemetry raw_rail env0 = some ⟨0, 0, 0⟩ ∧
      Iter4.read_telemetry raw_rail env0 ≠ none := by
  refine ⟨rfl, ?_, ?_⟩ <;> decide

/-- C4 amended: for every raw_i2c rail, and for every rail whose runtime
handle is absent, read_telemetry returns the all-zero sample (not absent);
absent arises only from unknown rail names or I/O and decode exceptions. -/
theorem read_telemetry_zero_sample_control_only_or_absent
    (c : Iter4.Ctrl) (env : Iter4.ReadEnv)
    (h : c.type = "raw_i2c" ∨ Iter4.handle_absent c = true) :
    Iter4.read_telemetry c env = some ⟨0, 0, 0⟩ := by
  apply read_telemetry_fallthrough
  · rintro ⟨ht, hb⟩
    rcases h with h | h
    · rw [h] at ht; exact (by decide : ("raw_i2c" : String) ≠ "pmbus") ht
    · simp only [Iter4.handle_absent, decide_eq_true_eq] at h
      rcases h with ⟨_, hbus⟩ | ⟨hm, _⟩ | ⟨hr, _⟩
      · rw [hbus] at hb; exact Bool.noConfusion hb
      · rw [hm] at ht; exact (by decide : ("sysfs_monitor" : String) ≠ "pmbus") ht
      · rw [hr] at ht
        exact (by decide : ("sysfs_regulator" : String) ≠ "pmbus") ht
  · rintro ⟨ht, hb⟩
    rcases h with h | h
    · rw [h] at ht
      exact (by decide : ("raw_i2c" : String) ≠ "sysfs_monitor") ht
    · simp only [Iter4.handle_absent, decide_eq_true_eq] at h
      rcases h with ⟨hor, _⟩ | ⟨_, hroot⟩ | ⟨hr, _⟩
      · rcases hor with hp | hr
        · rw [hp] at ht
          exact (by decide : ("pmbus" : String) ≠ "sysfs_monitor") ht
        · rw [hr] at ht
          exact (by decide : ("raw_i2c" : String) ≠ "sysfs_monitor") ht
      · rw [hroot] at hb; exact Bool.noConfusion hb
      · rw [hr] at ht
        exact (by decide : ("sysfs_regulator" : String) ≠ "sysfs_monitor") ht
  · rintro ⟨ht, hb⟩
    rcases h with h | h
    · rw [h] at ht
      exact (by decide : ("raw_i2c" : String) ≠ "sysfs_regulator") ht
    · simp only [Iter4.handle_absent, decide_eq_true_eq] at h
      rcases h with ⟨hor, _⟩ | ⟨hm, _⟩ | ⟨_, hpath⟩
      · rcases hor with hp | hr
        · rw [hp] at ht
          exact (by decide : ("pmbus" : String) ≠ "sysfs_regulator") ht
        · rw [hr] at ht
          exact (by decide : ("raw_i2c" : String) ≠ "sysfs_regulator") ht
      · rw [hm] at ht
        exact (by decide : ("sysfs_monitor" : String) ≠ "sysfs_regulator") ht
      · rw [hpath] at hb; exact Bool.noConfusion hb

/-- Witness for the amended C4: a pmbus rail whose bus never opened. -/
theorem read_telemetry_zero_sample_witness :
    Iter4.handle_absent { type := "pmbus", bus := none } = true ∧
      Iter4.read_telemetry { type := "pmbus", bus := none } env0 =
        some ⟨0, 0, 0⟩ :=
  ⟨by decide,
    read_telemetry_zero_sample_control_only_or_absent _ env0 (Or.inr (by decide))⟩

/- Evaluation of the pmbus write branch under the fixed-scale mode. -/
theorem pmbus_fixed_eval (c : Iter4.Ctrl) (v : ℚ) (addr cmd : ℕ)
    (cmds : Iter4.Cmds) (fmt : Iter4.Fmt) (scale : ℚ)
    (htype : c.type = "pmbus") (hbus : c.bus.isSome = true)
    (hin : Iter4.voltage_in_bounds c.conf v = true)
    (haddr : c.conf.connection.address = some addr)
    (hcmds : c.conf.commands = some cmds)
    (hfmt : c.conf.format = some fmt)
    (hcmd : cmds.set_voltage = some cmd)
    (hmode : fmt.voltage_mode = some "linear16_fixed")
    (hscale : fmt.scale_factor = some scale) :
    Iter4.set_voltage c v =
      (true, [Effect.writeWord addr cmd (pyTrunc (v * scale))]) := by
  simp [Iter4.set_voltage, Iter4.pmbus_write, hin, htype, hbus, haddr, hcmds,
    hfmt, hcmd, hmode, hscale]

/- Evaluation of the pmbus write branch under any other voltage mode: the
source's generic branch reads an unassigned local, so the write fails. -/
theorem pmbus_generic_fails (c : Iter4.Ctrl) (v : ℚ) (addr cmd : ℕ)
    (cmds : Iter4.Cmds) (fmt : Iter4.Fmt)
    (htype : c.type = "pmbus") (hbus : c.bus.isSome = true)
    (hin : Iter4.voltage_in_bounds c.conf v = true)
    (haddr : c.conf.connection.address = some addr)
    (hcmds : c.conf.commands = some cmds)
    (hfmt : c.conf.format = some fmt)
    (hcmd : cmds.set_voltage = some cmd)
    (hmode : fmt.voltage_mode ≠ some "linear16_fixed") :
    Iter4.set_voltage c v = (false, []) := by
  simp [Iter4.set_voltage, Iter4.pmbus_write, hin, htype, hbus, haddr, hcmds,
    hfmt, hcmd, hmode]

/- The sample requests used by the concrete pmbus theorems are in bounds. -/
theorem pmbus_rail_in_bounds :
    Iter4.voltage_in_bounds pmbus_rail.conf (17/20) = true := by
  rw [Iter4.voltage_in_bounds, show Iter4.lim_min pmbus_rail.conf = 11/20 from rfl,
    show Iter4.lim_max pmbus_rail.conf = 9/10 from rfl]
  norm_num

theorem pmbus_rail_generic_in_bounds :
    Iter4.voltage_in_bounds pmbus_rail_generic.conf (17/20) = true := by
  rw [Iter4.voltage_in_bounds,
    show Iter4.lim_min pmbus_rail_generic.conf = 11/20 from rfl,
    show Iter4.lim_max pmbus_rail_generic.conf = 9/10 from rfl]
  norm_num

theorem pyTrunc_sample : pyTrunc ((17/20 : ℚ) * 4096) = 3481 := by
  rw [pyTrunc, if_pos (by norm_num : (0 : ℚ) ≤ 17/20 * 4096)]
  norm_num

/-- C5 counterexample: at the in-bounds request 0.85 V with scale 4096 the
fixed-scale pmbus write encodes int(0.85 * 4096) = 3481, not
round(0.85 * 4096) = 3482; and under the generic scaled mode the write fails
outright (the source reads an unassigned scale variable), refuting both the
round encoding and generic-mode success. -/
theorem set_voltage_pmbus_not_round :
    Iter4.set_voltage pmbus_rail (17/20) =
        (true, [Effect.writeWord 0x40 0x21 3481]) ∧
      round ((17/20 : ℚ) * 4096) = 3482 ∧ (3481 : ℤ) ≠ 3482 ∧
      Iter4.set_voltage pmbus_rail_generic (17/20) = (false, []) := by
  refine ⟨?_, ?_, by decide, ?_⟩
  · rw [pmbus_fixed_eval pmbus_rail (17/20) 0x40 0x21 _ _ 4096 rfl rfl
      pmbus_rail_in_bounds rfl rfl rfl rfl rfl rfl, pyTrunc_sample]
  · rw [round_eq]
    norm_num
  · exact pmbus_generic_fails pmbus_rail_generic (17/20) 0x40 0x21 _ _ rfl rfl
      pmbus_rail_generic_in_bounds rfl rfl rfl rfl (by decide)

/-- C5 amended: for every in-bounds request on a pmbus rail with an open bus,
set_voltage under the fixed-scale voltage mode encodes the word as the
truncation toward zero of v * scale, writes it to the set_voltage register
and succeeds; under any other (generic scaled) voltage mode the write fails
with no I/O, because the source reads an unassigned scale variable there. -/
theorem set_voltage_pmbus_truncating (c : Iter4.Ctrl) (v : ℚ)
    (addr cmd : ℕ) (cmds : Iter4.Cmds) (fmt : Iter4.Fmt)
    (htype : c.type = "pmbus") (hbus : c.bus.isSome = true)
    (hin : Iter4.voltage_in_bounds c.conf v = true)
    (haddr : c.conf.connection.address = some addr)
    (hcmds : c.conf.commands = some cmds)
    (hfmt : c.conf.format = some fmt)
    (hcmd : cmds.set_voltage = some cmd) :
    (∀ scale, fmt.voltage_mode = some "linear16_fixed" →
        fmt.scale_factor = some scale →
        Iter4.set_voltage c v =
          (true, [Effect.writeWord addr cmd (pyTrunc (v * scale))])) ∧
      (fmt.voltage_mode ≠ some "linear16_fixed" →
        Iter4.set_voltage c v = (false, [])) :=
  ⟨fun scale hmode hscale =>
    pmbus_fixed_eval c v addr cmd cmds fmt scale htype hbus hin haddr hcmds
      hfmt hcmd hmode hscale,
    fun hmode =>
    pmbus_generic_fails c v addr cmd cmds fmt htype hbus hin haddr hcmds
      hfmt hcmd hmode⟩

/-- Witness for the amended C5 at 0.85 V on the fixed-scale rail. -/
theorem set_voltage_pmbus_truncating_witness :
    Iter4.voltage_in_bounds pmbus_rail.conf (17/20) = true ∧
      Iter4.set_voltage pmbus_rail (17/20) =
        (true, [Effect.writeWord 0x40 0x21 (pyTrunc ((17/20 : ℚ) * 4096))]) :=
  ⟨pmbus_rail_in_bounds,
    (set_voltage_pmbus_truncating pmbus_rail (17/20) 0x40 0x21 _ _ rfl rfl
      pmbus_rail_in_bounds rfl rfl rfl rfl).1 4096 rfl rfl⟩

/-- C6 counterexample: in Iteration Four a rail flagged read-only is not
blocked — the in-bounds request 0.85 V on a read-only pmbus rail succeeds and
a write reaches the handle, refuting the claim that read-only rails always
fail with no I/O. -/
theorem set_voltage_read_only_not_blocked :
    pmbus_rail_ro.conf.read_only = some true ∧
      Iter4.set_voltage pmbus_rail_ro (17/20) =
        (true, [Effect.writeWord 0x40 0x21 3481]) := by
  refine ⟨rfl, ?_⟩
  rw [pmbus_fixed_eval pmbus_rail_ro (17/20) 0x40 0x21 _ _ 4096 rfl rfl ?_ rfl
    rfl rfl rfl rfl rfl, pyTrunc_sample]
  rw [Iter4.voltage_in_bounds,
    show Iter4.lim_min pmbus_rail_ro.conf = 11/20 from rfl,
    show Iter4.lim_max pmbus_rail_ro.conf = 9/10 from rfl]
  norm_num

/-- C6 amended: the read-only block exists only in Iteration Three, where a
rail flagged read-only (the flag defaulting to true when unspecified) always
fails with no I/O; in both iterations a request on a rail of a driver type
other than pmbus, raw_i2c and sysfs_regulator fails with no I/O; Iteration
Four ignores the read-only flag (see the counterexample). -/
theorem set_voltage_read_only_and_unsupported :
    (∀ (c3 : Iter3.Ctrl) (v : ℚ), c3.conf.read_only.getD true = true →
        Iter3.set_voltage c3 v = (false, [])) ∧
      (∀ (c4 : Iter4.Ctrl) (v : ℚ), c4.type ≠ "pmbus" → c4.type ≠ "raw_i2c" →
        c4.type ≠ "sysfs_regulator" → Iter4.set_voltage c4 v = (false, [])) ∧
      (∀ (c3 : Iter3.Ctrl) (v : ℚ), c3.type ≠ "pmbus" → c3.type ≠ "raw_i2c" →
        c3.type ≠ "sysfs_regulator" → Iter3.set_voltage c3 v = (false, [])) := by
  refine ⟨fun c3 v h => ?_, fun c4 v h1 h2 h3 => ?_, fun c3 v h1 h2 h3 => ?_⟩
  · unfold Iter3.set_voltage
    rw [if_pos h]
  · simp [Iter4.set_voltage, h1, h2, h3]
  · simp [Iter3.set_voltage, h1, h2, h3]

/-- Witness for the amended C6: the default controllers (read-only by
default in Iteration Three, sysfs_monitor driver type in both). -/
theorem set_voltage_read_only_and_unsupported_witness :
    Iter3.set_voltage ({} : Iter3.Ctrl) (7/10) = (false, []) ∧
      Iter4.set_voltage ({} : Iter4.Ctrl) (7/10) = (false, []) :=
  ⟨set_voltage_read_only_and_unsupported.1 {} (7/10) rfl,
    set_voltage_read_only_and_unsupported.2.1 {} (7/10) (by decide) (by decide)
      (by decide)⟩

/-- C7: a sweep that would otherwise loop forever (zero step size, so the
voltage never drops below min - eps) executes exactly the 501 steps indexed
0 through 500 and halts at step 500 by the safety cap; the halt is a plain
loop break treated as a normal completion (every step still gets its summary
row) and the nominal reset call is still performed afterwards. -/
theorem sweep_halts_at_safety_cap :
    (Sweep.run_workload_sweep cfg_endless env_ok).reason =
        Sweep.ExitReason.safetyCap ∧
      ((Sweep.run_workload_sweep cfg_endless env_ok).trace.filterMap
          Sweep.stepIdx) = List.range' 0 501 ∧
      (Sweep.run_workload_sweep cfg_endless env_ok).rows.length = 501 ∧
      (500 ∈ List.range' 0 501 ∧ ∀ k ∈ List.range' 0 501, k ≤ 500) ∧
      ∃ pre, (Sweep.run_workload_sweep cfg_endless env_ok).trace =
        pre ++ [Sweep.SweepEv.setCall "VCCINT" (17/20)] := by
  have hL : Sweep.sweep_loop cfg_endless env_ok 502 cfg_endless.nominal_v 0
      none = ⟨capTrace 0 501,
        List.replicate 501 ⟨17/20, 0, "SUCCESS"⟩, .safetyCap⟩ :=
    sweep_cap_invariant 500 502 0 none (by omega) (by omega) (by omega)
  have hrun : Sweep.run_workload_sweep cfg_endless env_ok =
      ⟨capTrace 0 501 ++ [Sweep.SweepEv.setCall "VCCINT" (17/20)],
        List.replicate 501 ⟨17/20, 0, "SUCCESS"⟩, .safetyCap⟩ := by
    rw [Sweep.run_workload_sweep, hL]
    rfl
  refine ⟨by rw [hrun], ?_, by rw [hrun]; simp, ⟨?_, ?_⟩,
    ⟨capTrace 0 501, by rw [hrun]⟩⟩
  · rw [hrun]
    show (capTrace 0 501 ++
        [Sweep.SweepEv.setCall "VCCINT" (17/20)]).filterMap Sweep.stepIdx = _
    rw [List.filterMap_append, capTrace_filterMap]
    simp [Sweep.stepIdx]
  · rw [List.mem_range']
    exact ⟨500, by omega, by omega⟩
  · intro k hk
    rw [List.mem_range'] at hk
    obtain ⟨i, hi, rfl⟩ := hk
    omega

/-- C2: on every sweep termination path, set_voltage is invoked exactly once
more with the nominal voltage after the step loop ends: for every
configuration and environment the full call trace is the loop trace followed
by exactly one nominal setCall, and each of the four termination paths
(normal completion, abort on a voltage-write failure, user interruption,
safety-cap halt) is realised by a concrete environment. -/
theorem sweep_reset_after_loop :
    (∀ (cfg : Sweep.SweepConfig) (env : ℕ → Sweep.StepEvent),
        (Sweep.run_workload_sweep cfg env).trace =
          (Sweep.sweep_loop cfg env 502 cfg.nominal_v 0 none).trace ++
            [Sweep.SweepEv.setCall cfg.rail cfg.nominal_v]) ∧
      (Sweep.run_workload_sweep cfgA env_ok).reason =
        Sweep.ExitReason.normal ∧
      (Sweep.run_workload_sweep cfgA env_setFail).reason =
        Sweep.ExitReason.setFailAbort ∧
      (Sweep.run_workload_sweep cfgA env_interrupt).reason =
        Sweep.ExitReason.interrupted ∧
      (Sweep.run_workload_sweep cfg_endless env_ok).reason =
        Sweep.ExitReason.safetyCap := by
  have hg : (11/20 : ℚ) ≥ cfgA.min_v - Sweep.sweep_eps := by
    rw [show cfgA.min_v = (11/20 : ℚ) from rfl,
      show Sweep.sweep_eps = (1/10000 : ℚ) from rfl]
    norm_num
  refine ⟨fun cfg env => rfl, ?_, ?_, ?_, ?_⟩
  · have h1 : (Sweep.run_workload_sweep cfgA env_ok).reason =
        (Sweep.sweep_loop cfgA env_ok 502 cfgA.nominal_v 0 none).reason := rfl
    rw [h1, show cfgA.nominal_v = (11/20 : ℚ) from rfl,
      show (502 : ℕ) = 501 + 1 from rfl,
      Sweep.sweep_loop_run0_cont cfgA env_ok 501 0 (11/20) none none hg rfl
        (by omega)]
    have hstep : (11/20 : ℚ) - Sweep.choose_step cfgA (11/20) = 549/1000 := by
      rw [Sweep.choose_step, if_pos]
      · rw [show Sweep.fine_step = (1/1000 : ℚ) from rfl]; norm_num
      · rw [show Sweep.fine_threshold cfgA = 11/20 + 2/100 from rfl]; norm_num
    dsimp only
    rw [hstep, show (501 : ℕ) = 500 + 1 from rfl,
      Sweep.sweep_loop_exit cfgA env_ok 500 1 (549/1000) (some "SUCCESS") ?_]
    rw [show cfgA.min_v = (11/20 : ℚ) from rfl,
      show Sweep.sweep_eps = (1/10000 : ℚ) from rfl]
    norm_num
  · have h1 : (Sweep.run_workload_sweep cfgA env_setFail).reason =
        (Sweep.sweep_loop cfgA env_setFail 502 cfgA.nominal_v 0 none).reason :=
      rfl
    rw [h1, show cfgA.nominal_v = (11/20 : ℚ) from rfl,
      show (502 : ℕ) = 501 + 1 from rfl,
      Sweep.sweep_loop_setFail cfgA env_setFail 501 0 (11/20) none hg rfl]
  · have h1 : (Sweep.run_workload_sweep cfgA env_interrupt).reason =
        (Sweep.sweep_loop cfgA env_interrupt 502 cfgA.nominal_v 0
          none).reason := rfl
    rw [h1, show cfgA.nominal_v = (11/20 : ℚ) from rfl,
      show (502 : ℕ) = 501 + 1 from rfl,
      Sweep.sweep_loop_interrupt cfgA env_interrupt 501 0 (11/20) none hg rfl]
  · have h1 : (Sweep.run_workload_sweep cfg_endless env_ok).reason =
        (Sweep.sweep_loop cfg_endless env_ok 502 cfg_endless.nominal_v 0
          none).reason := rfl
    rw [h1, show cfg_endless.nominal_v = (17/20 : ℚ) from rfl,
      sweep_cap_invariant 500 502 0 none (by omega) (by omega) (by omega)]

/-- C3 (code slip): for a workload exit code other than 0 and -6 the source
only prints CRASH and never assigns the status local. On a first-step crash
the summary write in the finally block reads the unassigned local, raising
UnboundLocalError: no row is recorded and the sweep aborts (the reset still
runs). On a later-step crash the row records the previous step's stale
SUCCESS status instead of a crash descriptor (the loop does continue). -/
theorem crash_status_never_assigned :
    (Sweep.run_workload_sweep cfg_std env_crash0).reason =
        Sweep.ExitReason.pythonError ∧
      (Sweep.run_workload_sweep cfg_std env_crash0).rows = [] ∧
      (Sweep.run_workload_sweep cfg_std env_crash0).trace =
        [Sweep.SweepEv.stepStart 0 (17/20),
          Sweep.SweepEv.setCall "VCCINT" (17/20),
          Sweep.SweepEv.setCall "VCCINT" (17/20)] ∧
      (Sweep.run_workload_sweep cfgC env_crash1).rows =
        [⟨551/1000, 923/1000, "SUCCESS"⟩, ⟨11/20, 0, "SUCCESS"⟩] ∧
      (Sweep.run_workload_sweep cfgC env_crash1).reason =
        Sweep.ExitReason.normal := by
  have hg0 : (17/20 : ℚ) ≥ cfg_std.min_v - Sweep.sweep_eps := by
    rw [show cfg_std.min_v = (11/20 : ℚ) from rfl,
      show Sweep.sweep_eps = (1/10000 : ℚ) from rfl]
    norm_num
  have hrun0 : Sweep.run_workload_sweep cfg_std env_crash0 =
      ⟨[Sweep.SweepEv.stepStart 0 (17/20),
          Sweep.SweepEv.setCall "VCCINT" (17/20),
          Sweep.SweepEv.setCall "VCCINT" (17/20)], [], .pythonError⟩ := by
    rw [Sweep.run_workload_sweep,
      show cfg_std.nominal_v = (17/20 : ℚ) from rfl,
      show (502 : ℕ) = 501 + 1 from rfl,
      Sweep.sweep_loop_crash_unassigned cfg_std env_crash0 501 0 (17/20) 1
        none hg0 rfl (by norm_num) (by norm_num)]
    rfl
  have hg1 : (551/1000 : ℚ) ≥ cfgC.min_v - Sweep.sweep_eps := by
    rw [show cfgC.min_v = (11/20 : ℚ) from rfl,
      show Sweep.sweep_eps = (1/10000 : ℚ) from rfl]
    norm_num
  have hg2 : (11/20 : ℚ) ≥ cfgC.min_v - Sweep.sweep_eps := by
    rw [show cfgC.min_v = (11/20 : ℚ) from rfl,
      show Sweep.sweep_eps = (1/10000 : ℚ) from rfl]
    norm_num
  have hs1 : (551/1000 : ℚ) - Sweep.choose_step cfgC (551/1000) = 11/20 := by
    rw [Sweep.choose_step, if_pos]
    · rw [show Sweep.fine_step = (1/1000 : ℚ) from rfl]; norm_num
    · rw [show Sweep.fine_threshold cfgC = 11/20 + 2/100 from rfl]; norm_num
  have hs2 : (11/20 : ℚ) - Sweep.choose_step cfgC (11/20) = 549/1000 := by
    rw [Sweep.choose_step, if_pos]
    · rw [show Sweep.fine_step = (1/1000 : ℚ) from rfl]; norm_num
    · rw [show Sweep.fine_threshold cfgC = 11/20 + 2/100 from rfl]; norm_num
  have hx : ¬ ((549/1000 : ℚ) ≥ cfgC.min_v - Sweep.sweep_eps) := by
    rw [show cfgC.min_v = (11/20 : ℚ) from rfl,
      show Sweep.sweep_eps = (1/10000 : ℚ) from rfl]
    norm_num
  have hrun1 : Sweep.run_workload_sweep cfgC env_crash1 =
      ⟨[Sweep.SweepEv.stepStart 0 (551/1000),
          Sweep.SweepEv.setCall "VCCINT" (551/1000),
          Sweep.SweepEv.stepStart 1 (11/20),
          Sweep.SweepEv.setCall "VCCINT" (11/20),
          Sweep.SweepEv.setCall "VCCINT" (551/1000)],
        [⟨551/1000, 923/1000, "SUCCESS"⟩, ⟨11/20, 0, "SUCCESS"⟩],
        .normal⟩ := by
    rw [Sweep.run_workload_sweep,
      show cfgC.nominal_v = (551/1000 : ℚ) from rfl,
      show (502 : ℕ) = 501 + 1 from rfl,
      Sweep.sweep_loop_run0_cont cfgC env_crash1 501 0 (551/1000) none
        (some (923/1000)) hg1 rfl (by omega)]
    rw [hs1, show (501 : ℕ) = 500 + 1 from rfl,
      Sweep.sweep_loop_crash_stale cfgC env_crash1 500 1 (11/20) "SUCCESS" 1
        none hg2 rfl (by norm_num) (by norm_num) (by omega)]
    rw [hs2, show (500 : ℕ) = 499 + 1 from rfl,
      Sweep.sweep_loop_exit cfgC env_crash1 499 2 (549/1000) (some "SUCCESS")
        hx]
    rfl
  exact ⟨by rw [hrun0], by rw [hrun0], by rw [hrun0], by rw [hrun1],
    by rw [hrun1]⟩

/-- C8: in a sweep with nominal 0.85, min 0.55 and coarse step 0.01, the
fine threshold is min + 0.02 = 0.57; stepping from 0.58 uses the coarse step
and yields 0.57, while every step taken at a voltage at or below the
threshold decrements by exactly the fine step 0.001. -/
theorem step_size_policy :
    Sweep.fine_threshold cfg_std = 57/100 ∧
      Sweep.choose_step cfg_std (58/100) = 1/100 ∧
      (58/100 : ℚ) - Sweep.choose_step cfg_std (58/100) = 57/100 ∧
      Sweep.fine_step = 1/1000 ∧
      (∀ v : ℚ, v ≤ Sweep.fine_threshold cfg_std →
        Sweep.choose_step cfg_std v = 1/1000) := by
  have ht : Sweep.fine_threshold cfg_std = 57/100 := by
    rw [show Sweep.fine_threshold cfg_std = 11/20 + 2/100 from rfl]
    norm_num
  have hc : Sweep.choose_step cfg_std (58/100) = 1/100 := by
    rw [Sweep.choose_step, if_neg]
    · exact rfl
    · rw [ht]; norm_num
  refine ⟨ht, hc, by rw [hc]; norm_num, rfl, fun v hv => ?_⟩
  rw [Sweep.choose_step, if_pos hv]
  exact rfl

/-- Witness for C8 at the threshold voltage 0.57 itself. -/
theorem step_size_policy_witness :
    (57/100 : ℚ) ≤ Sweep.fine_threshold cfg_std ∧
      Sweep.choose_step cfg_std (57/100) = 1/1000 :=
  ⟨by rw [step_size_policy.1], step_size_policy.2.2.2.2 (57/100)
    (by rw [step_size_policy.1])⟩
